import Mathlib

/-
Verification of seq2seq/tasks/training_task.py (class TrainingTask).

The file under verification is configuration-dispatch glue: it resolves a
model class name to a class object, merges a configuration dictionary with
defaults, creates a model instance for a run mode, instantiates training
hooks from name/parameter pairs, and looks up metric specifications by name.

Embedding notes.
Python values are modelled by the inductive `PyVal`, with Python truthiness
given by `pyTruthy`.  Dynamic lookups that live outside this file
(`pydoc.locate`, the attributes of the `seq2seq.models` and
`seq2seq.training.hooks` modules, `METRIC_SPECS_DICT` from
`seq2seq.metrics.metric_specs`, and the default parameter dictionaries of the
two default hook classes) are collected in an abstract environment `PyEnv`.
Calling a class is modelled symbolically: the result is the term
`PyVal.pyInstance cls posArgs kwArgs`, recording the class and the exact
positional and keyword arguments of the constructor call.
Raising is modelled with `Except PyError`.  Methods that could in principle
mutate `self` are given in state-passing style, returning the task together
with the result, translated line by line from the Python bodies (which
contain no assignment to `self`).
-/

namespace Seq2Seq

/-- A Python value.  `pyObj id truthy` stands for an opaque object (a class,
a function, a module member) with the given identity and truthiness;
`pyInstance cls posArgs kwArgs` stands for the object obtained by calling
`cls` with the given positional and keyword arguments. -/
inductive PyVal where
  | pyNone : PyVal
  | pyStr : String → PyVal
  | pyList : List PyVal → PyVal
  | pyDict : List (String × PyVal) → PyVal
  | pyObj : Nat → Bool → PyVal
  | pyInstance : PyVal → List PyVal → List (String × PyVal) → PyVal
deriving Repr

/-- Python truthiness: `None` is falsy, strings/lists/dicts are truthy iff
nonempty, opaque objects carry their truthiness, instances are truthy. -/
def pyTruthy : PyVal → Bool
  | PyVal.pyNone => false
  | PyVal.pyStr s => !s.isEmpty
  | PyVal.pyList xs => !xs.isEmpty
  | PyVal.pyDict es => !es.isEmpty
  | PyVal.pyObj _ t => t
  | PyVal.pyInstance _ _ _ => true

/-- View an optional lookup result as a Python value (`none` is `None`). -/
def optToPy : Option PyVal → PyVal
  | none => PyVal.pyNone
  | some v => v

/-- The Python exceptions raised by the code under verification. -/
inductive PyError where
  | attributeError : String → PyError
  | keyError : String → PyError
deriving Repr

/-- The external lookup environment of training_task.py.
`locate name` is `pydoc.locate(name)` (`none` is Python `None`);
`modelsAttr` and `hooksAttr` are attribute lookup on the `seq2seq.models`
and `seq2seq.training.hooks` modules (`none` means `getattr` raises
`AttributeError`); `pmaDefaultParams` and `mchDefaultParams` are
`hooks.PrintModelAnalysisHook.default_params()` and
`hooks.MetadataCaptureHook.default_params()`; `metricSpecsDict` is
`METRIC_SPECS_DICT` (`none` means the key is absent).  These live in
modules outside the file under verification and are kept abstract. -/
structure PyEnv where
  locate : String → Option PyVal
  modelsAttr : String → Option PyVal
  hooksAttr : String → Option PyVal
  pmaDefaultParams : PyVal
  mchDefaultParams : PyVal
  metricSpecsDict : String → Option PyVal

/-- The expression `locate(name) or getattr(module, name)`: the result of
`locate` when it is truthy, otherwise the module attribute; `getattr`
raises `AttributeError(name)` when the attribute is absent. -/
def resolveOrGetattr (loc : String → Option PyVal) (attr : String → Option PyVal)
    (name : String) : Except PyError PyVal :=
  let l := optToPy (loc name)
  if pyTruthy l then Except.ok l
  else
    match attr name with
    | some v => Except.ok v
    | none => Except.error (PyError.attributeError name)

/-- One entry of `params["hooks"]`: a dictionary with a "class" key
(field `cls`) and a "params" key (field `params`). -/
structure HookEntry where
  cls : String
  params : PyVal
deriving Repr

/-- The configuration dictionary of a `TrainingTask`, with the four keys of
`TrainingTask.default_params()`. -/
structure TaskParams where
  metrics : List String
  model_class : String
  model_params : PyVal
  hooks : List HookEntry
deriving Repr

/-- A user-supplied configuration: each key may be present or absent. -/
structure UserParams where
  metrics : Option (List String)
  model_class : Option String
  model_params : Option PyVal
  hooks : Option (List HookEntry)

/-- The state of a constructed `TrainingTask`: `self.params` (the merged
configuration set by `Configurable.__init__`) and `self._model_cls`. -/
structure TrainingTask where
  params : TaskParams
  model_cls : PyVal
deriving Repr

/-- `TrainingTask.default_params()`: metrics `[]`, model_class `""`,
model_params `{}`, and two hook entries with the hook classes' own
default parameter dictionaries. -/
def TrainingTask.default_params (env : PyEnv) : TaskParams :=
  { metrics := []
    model_class := ""
    model_params := PyVal.pyDict []
    hooks := [{ cls := "PrintModelAnalysisHook", params := env.pmaDefaultParams },
              { cls := "MetadataCaptureHook", params := env.mchDefaultParams }] }

/-- Modelled from the spec: `Configurable.__init__` (module
`seq2seq.configurable`, not part of the file under verification) merges the
user-supplied configuration dictionary with `default_params()`; a
user-supplied value overrides the default for its key. -/
def mergeParams (env : PyEnv) (u : UserParams) : TaskParams :=
  { metrics := u.metrics.getD (TrainingTask.default_params env).metrics
    model_class := u.model_class.getD (TrainingTask.default_params env).model_class
    model_params := u.model_params.getD (TrainingTask.default_params env).model_params
    hooks := u.hooks.getD (TrainingTask.default_params env).hooks }

/-- `TrainingTask.__init__` after the `Configurable` merge: stores the merged
params and `self._model_cls = locate(self.params["model_class"]) or
getattr(models, self.params["model_class"])`. -/
def TrainingTask.init (env : PyEnv) (p : TaskParams) : Except PyError TrainingTask :=
  match resolveOrGetattr env.locate env.modelsAttr p.model_class with
  | Except.ok c => Except.ok { params := p, model_cls := c }
  | Except.error e => Except.error e

/-- `TrainingTask(params)` from a user-supplied configuration: merge with the
defaults, then run `__init__`'s class resolution. -/
def TrainingTask.initFromUser (env : PyEnv) (u : UserParams) : Except PyError TrainingTask :=
  TrainingTask.init env (mergeParams env u)

/-- `create_model(mode)`: `self._model_cls(params=self.params["model_params"],
mode=mode)`.  The method does not assign to `self`, so the returned state is
the input state. -/
def TrainingTask.create_model (t : TrainingTask) (mode : PyVal) :
    PyVal × TrainingTask :=
  (PyVal.pyInstance t.model_cls []
    [("params", t.params.model_params), ("mode", mode)], t)

/-- The `tf.learn` estimator, of which only `model_dir` is read. -/
structure Estimator where
  model_dir : PyVal
deriving Repr

/-- The loop of `create_training_hooks`: for each entry, resolve
`locate(hook_dict["class"]) or getattr(hooks, hook_dict["class"])`, call the
class on `(hook_dict["params"], model_dir)`, append. -/
def buildHooks (env : PyEnv) (model_dir : PyVal) :
    List HookEntry → Except PyError (List PyVal)
  | [] => Except.ok []
  | h :: rest =>
    match resolveOrGetattr env.locate env.hooksAttr h.cls with
    | Except.error e => Except.error e
    | Except.ok hook_cls =>
      match buildHooks env model_dir rest with
      | Except.error e => Except.error e
      | Except.ok tl =>
        Except.ok (PyVal.pyInstance hook_cls [h.params, model_dir] [] :: tl)

/-- `create_training_hooks(estimator)`: builds the hook list from
`self.params["hooks"]` and `estimator.model_dir`; no assignment to `self`. -/
def TrainingTask.create_training_hooks (env : PyEnv) (t : TrainingTask)
    (estimator : Estimator) : Except PyError (List PyVal) × TrainingTask :=
  (buildHooks env estimator.model_dir t.params.hooks, t)

/-- Python dictionary assignment `d[k] = v` on an insertion-ordered
association list: update the existing entry in place, else append. -/
def dictInsert : List (String × PyVal) → String → PyVal → List (String × PyVal)
  | [], k, v => [(k, v)]
  | kv :: rest, k, v =>
    if kv.1 = k then (k, v) :: rest else kv :: dictInsert rest k v

/-- Python dictionary lookup on an insertion-ordered association list:
the value of the first entry with the given key. -/
def dictLookup : List (String × PyVal) → String → Option PyVal
  | [], _ => none
  | kv :: rest, k => if kv.1 = k then some kv.2 else dictLookup rest k

/-- The dict comprehension `{m : METRIC_SPECS_DICT[m] for m in metrics}`:
iterate the names in order, look each up (raising `KeyError(m)` on a missing
key), and insert into the dictionary being built. -/
def buildMetrics (specs : String → Option PyVal) (acc : List (String × PyVal)) :
    List String → Except PyError (List (String × PyVal))
  | [] => Except.ok acc
  | m :: rest =>
    match specs m with
    | none => Except.error (PyError.keyError m)
    | some v => buildMetrics specs (dictInsert acc m v) rest

/-- `create_metrics()`: the comprehension over `self.params["metrics"]`;
no assignment to `self`. -/
def TrainingTask.create_metrics (env : PyEnv) (t : TrainingTask) :
    Except PyError (List (String × PyVal)) × TrainingTask :=
  (buildMetrics env.metricSpecsDict [] t.params.metrics, t)

/-- The class a hook entry resolves to, when resolution succeeds
(`pyNone` as a placeholder on the error branch). -/
def resolvedHookCls (env : PyEnv) (h : HookEntry) : PyVal :=
  match resolveOrGetattr env.locate env.hooksAttr h.cls with
  | Except.ok c => c
  | Except.error _ => PyVal.pyNone

theorem dictLookup_dictInsert (d : List (String × PyVal)) (k k' : String) (v : PyVal) :
    dictLookup (dictInsert d k v) k' = if k' = k then some v else dictLookup d k' := by
  induction d with
  | nil =>
    by_cases h : k' = k
    · simp [dictInsert, dictLookup, h]
    · simp [dictInsert, dictLookup, h, Ne.symm h]
  | cons hd tl ih =>
    by_cases h1 : hd.1 = k
    · by_cases h2 : k' = k
      · simp [dictInsert, dictLookup, h1, h2]
      · simp [dictInsert, dictLookup, h1, h2, Ne.symm h2]
    · by_cases h2 : hd.1 = k'
      · have hk : ¬(k' = k) := fun hh => h1 (by rw [h2, hh])
        simp [dictInsert, dictLookup, h1, h2, hk]
      · simp [dictInsert, dictLookup, h1, h2, ih]

theorem buildMetrics_ok (specs : String → Option PyVal) :
    ∀ (ms : List String) (acc : List (String × PyVal)),
      (∀ m ∈ ms, (specs m).isSome = true) →
      ∃ d, buildMetrics specs acc ms = Except.ok d ∧
        ∀ k, dictLookup d k = if k ∈ ms then specs k else dictLookup acc k := by
  intro ms
  induction ms with
  | nil =>
    intro acc _
    exact ⟨acc, rfl, fun k => by simp⟩
  | cons m rest ih =>
    intro acc hall
    obtain ⟨v, hv⟩ : ∃ v, specs m = some v :=
      Option.isSome_iff_exists.mp (hall m (by simp))
    obtain ⟨d, hd, hlook⟩ :=
      ih (dictInsert acc m v) (fun x hx => hall x (by simp [hx]))
    refine ⟨d, by simp [buildMetrics, hv, hd], ?_⟩
    intro k
    rw [hlook k]
    by_cases hk : k ∈ rest
    · simp [hk]
    · by_cases hk2 : k = m
      · subst hk2
        simp [hk, dictLookup_dictInsert, hv]
      · simp [hk, hk2, dictLookup_dictInsert]

theorem buildMetrics_err (specs : String → Option PyVal) :
    ∀ (ms : List String) (acc : List (String × PyVal)),
      (∃ m ∈ ms, specs m = none) →
      ∃ k, k ∈ ms ∧ specs k = none ∧
        buildMetrics specs acc ms = Except.error (PyError.keyError k) := by
  intro ms
  induction ms with
  | nil =>
    intro acc h
    simp at h
  | cons m rest ih =>
    intro acc h
    cases hm : specs m with
    | none => exact ⟨m, by simp, hm, by simp [buildMetrics, hm]⟩
    | some v =>
      obtain ⟨x, hx, hxn⟩ := h
      rcases List.mem_cons.mp hx with h1 | h2
      · rw [h1, hm] at hxn
        cases hxn
      · obtain ⟨k, hk1, hk2, hk3⟩ := ih (dictInsert acc m v) ⟨x, h2, hxn⟩
        exact ⟨k, by simp [hk1], hk2, by simp [buildMetrics, hm, hk3]⟩

theorem buildHooks_ok (env : PyEnv) (d : PyVal) :
    ∀ hs : List HookEntry,
      (∀ h ∈ hs, ∃ c, resolveOrGetattr env.locate env.hooksAttr h.cls = Except.ok c) →
      buildHooks env d hs = Except.ok (hs.map (fun h =>
        PyVal.pyInstance (resolvedHookCls env h) [h.params, d] [])) := by
  intro hs
  induction hs with
  | nil => intro _; rfl
  | cons h rest ih =>
    intro hall
    obtain ⟨c, hc⟩ := hall h (by simp)
    have hrest := ih (fun x hx => hall x (by simp [hx]))
    simp [buildHooks, hc, hrest, resolvedHookCls]

/-- A concrete model class reachable through `pydoc.locate`. -/
def clsA : PyVal := PyVal.pyObj 1 true

/-- A concrete model class reachable as an attribute of `seq2seq.models`. -/
def clsB : PyVal := PyVal.pyObj 2 true

/-- A concrete hook class reachable through `seq2seq.training.hooks`. -/
def clsH : PyVal := PyVal.pyObj 3 true

/-- A concrete metric specification. -/
def specBleu : PyVal := PyVal.pyObj 9 true

/-- A concrete environment used to exercise the theorems: `pydoc.locate`
finds `"mypkg.ModelA"`, the models module has attribute `"ModelB"`,
the hooks module has attribute `"HookH"`, and `METRIC_SPECS_DICT`
has the single key `"bleu"`. -/
def envW : PyEnv :=
  { locate := fun s => if s = "mypkg.ModelA" then some clsA else none
    modelsAttr := fun s => if s = "ModelB" then some clsB else none
    hooksAttr := fun s => if s = "HookH" then some clsH else none
    pmaDefaultParams := PyVal.pyDict []
    mchDefaultParams := PyVal.pyDict []
    metricSpecsDict := fun s => if s = "bleu" then some specBleu else none }

/-- A concrete configuration whose model class resolves through `locate`. -/
def paramsA : TaskParams :=
  { metrics := ["bleu"]
    model_class := "mypkg.ModelA"
    model_params := PyVal.pyDict []
    hooks := [{ cls := "HookH", params := PyVal.pyDict [] }] }

/-- A concrete configuration whose model class resolves through the
models module attribute. -/
def paramsB : TaskParams :=
  { metrics := []
    model_class := "ModelB"
    model_params := PyVal.pyDict []
    hooks := [] }

/-- A concrete configuration whose model class resolves nowhere. -/
def paramsNope : TaskParams :=
  { metrics := []
    model_class := "Nope"
    model_params := PyVal.pyDict []
    hooks := [] }

/-- A concrete configuration with an unknown metric name. -/
def paramsBad : TaskParams :=
  { metrics := ["rouge"]
    model_class := "ModelB"
    model_params := PyVal.pyDict []
    hooks := [] }

/-- A concrete constructed task over `paramsA`. -/
def taskA : TrainingTask := { params := paramsA, model_cls := clsA }

/-- A concrete constructed task over `paramsBad`. -/
def taskBad : TrainingTask := { params := paramsBad, model_cls := clsB }

/-- A concrete estimator. -/
def estA : Estimator := { model_dir := PyVal.pyStr "dir" }

/-- A user-supplied configuration that overrides nothing. -/
def userNone : UserParams :=
  { metrics := none, model_class := none, model_params := none, hooks := none }

/-- Claim C1: `TrainingTask.__init__` stores as the task's model class the
result of `pydoc.locate(params["model_class"])` whenever that result is
truthy, and otherwise the attribute of the `seq2seq.models` module of that
name; `locate` takes precedence and the module attribute is consulted only
when `locate` yields a falsy value. -/
theorem c1_init_resolves_model_class (env : PyEnv) (p : TaskParams) :
    (pyTruthy (optToPy (env.locate p.model_class)) = true →
      TrainingTask.init env p =
        Except.ok { params := p, model_cls := optToPy (env.locate p.model_class) }) ∧
    (pyTruthy (optToPy (env.locate p.model_class)) = false →
      ∀ v, env.modelsAttr p.model_class = some v →
        TrainingTask.init env p = Except.ok { params := p, model_cls := v }) := by
  constructor
  · intro hT
    simp [TrainingTask.init, resolveOrGetattr, hT]
  · intro hT v hv
    simp [TrainingTask.init, resolveOrGetattr, hT, hv]

/-- Witness for C1: in the concrete environment the `locate` branch stores
`clsA` and the module-attribute branch stores `clsB`. -/
theorem c1_witness :
    TrainingTask.init envW paramsA = Except.ok { params := paramsA, model_cls := clsA } ∧
    TrainingTask.init envW paramsB = Except.ok { params := paramsB, model_cls := clsB } :=
  ⟨(c1_init_resolves_model_class envW paramsA).1 rfl,
   (c1_init_resolves_model_class envW paramsB).2 rfl clsB rfl⟩

/-- Claim C2: when every hook entry's class resolves,
`create_training_hooks(estimator)` returns one hook per entry of
`params["hooks"]`, in order; each hook is an instance of the class the
entry's "class" key resolves to (`pydoc.locate`, falling back to the
`seq2seq.training.hooks` attribute), constructed from the entry's "params"
value and `estimator.model_dir`, with "params" passed through unmodified. -/
theorem c2_create_training_hooks_maps_entries (env : PyEnv) (t : TrainingTask)
    (estimator : Estimator)
    (hres : ∀ h ∈ t.params.hooks,
      ∃ c, resolveOrGetattr env.locate env.hooksAttr h.cls = Except.ok c) :
    (TrainingTask.create_training_hooks env t estimator).1 =
      Except.ok (t.params.hooks.map (fun h =>
        PyVal.pyInstance (resolvedHookCls env h) [h.params, estimator.model_dir] [])) :=
  buildHooks_ok env estimator.model_dir t.params.hooks hres

/-- Witness for C2: the single configured hook entry of `taskA` yields the
instance of `clsH` built from the entry's params and the model dir. -/
theorem c2_witness :
    (TrainingTask.create_training_hooks envW taskA estA).1 =
      Except.ok [PyVal.pyInstance clsH [PyVal.pyDict [], PyVal.pyStr "dir"] []] :=
  c2_create_training_hooks_maps_entries envW taskA estA
    (by
      intro h hh
      simp [taskA, paramsA] at hh
      subst hh
      exact ⟨clsH, rfl⟩)

/-- Claim C3: when every configured metric name is a key of
`METRIC_SPECS_DICT`, `create_metrics()` returns the mapping sending each
configured name to its specification, unmodified, with no other keys; an
empty metrics list yields the empty mapping. -/
theorem c3_create_metrics_maps_names (env : PyEnv) (t : TrainingTask)
    (hall : ∀ m ∈ t.params.metrics, (env.metricSpecsDict m).isSome = true) :
    ∃ d, (TrainingTask.create_metrics env t).1 = Except.ok d ∧
      (∀ m ∈ t.params.metrics, dictLookup d m = env.metricSpecsDict m) ∧
      (∀ k, k ∉ t.params.metrics → dictLookup d k = none) ∧
      (t.params.metrics = [] → d = []) := by
  obtain ⟨d, hd, hlook⟩ :=
    buildMetrics_ok env.metricSpecsDict t.params.metrics [] hall
  refine ⟨d, hd, ?_, ?_, ?_⟩
  · intro m hm
    rw [hlook m]
    simp [hm]
  · intro k hk
    rw [hlook k]
    simp [hk, dictLookup]
  · intro hnil
    rw [hnil] at hd
    simpa [buildMetrics] using hd.symm

/-- Witness for C3: `taskA` configures the single metric `"bleu"`;
applying the theorem there yields the singleton mapping. -/
theorem c3_witness :
    ∃ d, (TrainingTask.create_metrics envW taskA).1 = Except.ok d ∧
      (∀ m ∈ taskA.params.metrics, dictLookup d m = envW.metricSpecsDict m) ∧
      (∀ k, k ∉ taskA.params.metrics → dictLookup d k = none) ∧
      (taskA.params.metrics = [] → d = []) :=
  c3_create_metrics_maps_names envW taskA
    (by
      intro m hm
      simp [taskA, paramsA] at hm
      subst hm
      rfl)

/-- Claim C4: `create_model(mode)` returns a new instance of the resolved
model class, constructed with exactly the keyword arguments
`params=self.params["model_params"]` and `mode=mode`. -/
theorem c4_create_model_kwargs (t : TrainingTask) (mode : PyVal) :
    (TrainingTask.create_model t mode).1 =
      PyVal.pyInstance t.model_cls []
        [("params", t.params.model_params), ("mode", mode)] := rfl

/-- Claim C5: construction raises (the `AttributeError` of `getattr`)
exactly when `locate` yields a falsy value and the models module lacks the
attribute; it succeeds in every other case, and no task is produced on
failure. -/
theorem c5_init_error_iff_unresolvable (env : PyEnv) (p : TaskParams) :
    ((∃ e, TrainingTask.init env p = Except.error e) ↔
      (pyTruthy (optToPy (env.locate p.model_class)) = false ∧
        env.modelsAttr p.model_class = none)) ∧
    (∀ e, TrainingTask.init env p = Except.error e →
      e = PyError.attributeError p.model_class) ∧
    ((∃ t, TrainingTask.init env p = Except.ok t) ↔
      ¬(pyTruthy (optToPy (env.locate p.model_class)) = false ∧
        env.modelsAttr p.model_class = none)) := by
  by_cases hT : pyTruthy (optToPy (env.locate p.model_class)) = true
  · refine ⟨?_, ?_, ?_⟩ <;>
      simp [TrainingTask.init, resolveOrGetattr, hT]
  · have hF : pyTruthy (optToPy (env.locate p.model_class)) = false :=
      Bool.not_eq_true _ ▸ eq_false_of_ne_true hT
    cases hA : env.modelsAttr p.model_class with
    | none =>
      refine ⟨?_, ?_, ?_⟩ <;>
        simp [TrainingTask.init, resolveOrGetattr, hF, hA]
    | some v =>
      refine ⟨?_, ?_, ?_⟩ <;>
        simp [TrainingTask.init, resolveOrGetattr, hF, hA]

/-- Witness for C5: `"Nope"` resolves nowhere in the concrete environment,
so construction fails with `AttributeError("Nope")`. -/
theorem c5_witness :
    TrainingTask.init envW paramsNope = Except.error (PyError.attributeError "Nope") := by
  obtain ⟨e, he⟩ :=
    (c5_init_error_iff_unresolvable envW paramsNope).1.mpr ⟨rfl, rfl⟩
  have h2 := (c5_init_error_iff_unresolvable envW paramsNope).2.1 e he
  rw [h2] at he
  exact he

/-- Claim C6: `default_params()` returns metrics `[]`, model_class `""`,
model_params `{}`, and the two-entry hooks list naming
`PrintModelAnalysisHook` first and `MetadataCaptureHook` second, each paired
with that hook class's own `default_params()`; these are the values merged
with the user-supplied configuration (a user configuration overriding
nothing yields exactly them). -/
theorem c6_default_params_value (env : PyEnv) :
    (TrainingTask.default_params env).metrics = [] ∧
    (TrainingTask.default_params env).model_class = "" ∧
    (TrainingTask.default_params env).model_params = PyVal.pyDict [] ∧
    (TrainingTask.default_params env).hooks =
      [{ cls := "PrintModelAnalysisHook", params := env.pmaDefaultParams },
       { cls := "MetadataCaptureHook", params := env.mchDefaultParams }] ∧
    mergeParams env { metrics := none, model_class := none,
                      model_params := none, hooks := none } =
      TrainingTask.default_params env :=
  ⟨rfl, rfl, rfl, rfl, rfl⟩

/-- Claim C7: when some configured metric name is not a key of
`METRIC_SPECS_DICT`, `create_metrics()` raises a `KeyError` for such a
configured unknown name instead of returning a mapping, and the task's
state is unchanged by the failed call. -/
theorem c7_create_metrics_keyerror (env : PyEnv) (t : TrainingTask)
    (hbad : ∃ m ∈ t.params.metrics, env.metricSpecsDict m = none) :
    (∃ k, k ∈ t.params.metrics ∧ env.metricSpecsDict k = none ∧
      (TrainingTask.create_metrics env t).1 = Except.error (PyError.keyError k)) ∧
    (TrainingTask.create_metrics env t).2 = t := by
  refine ⟨?_, rfl⟩
  obtain ⟨k, h1, h2, h3⟩ :=
    buildMetrics_err env.metricSpecsDict t.params.metrics [] hbad
  exact ⟨k, h1, h2, h3⟩

/-- Witness for C7: `taskBad` configures the unknown metric `"rouge"`,
and the call fails with a `KeyError` while leaving the task unchanged. -/
theorem c7_witness :
    (∃ k, k ∈ taskBad.params.metrics ∧ envW.metricSpecsDict k = none ∧
      (TrainingTask.create_metrics envW taskBad).1 = Except.error (PyError.keyError k)) ∧
    (TrainingTask.create_metrics envW taskBad).2 = taskBad :=
  c7_create_metrics_keyerror envW taskBad
    ⟨"rouge", by simp [taskBad, paramsBad], rfl⟩

/-- Claim C8: with `model_class` left at the default empty string, and with
`pydoc.locate("")` falsy and `getattr(models, "")` raising, construction
fails with an `AttributeError`; hence every successful construction
overrides `model_class`. -/
theorem c8_default_model_class_unresolvable (env : PyEnv) (u : UserParams)
    (hloc : pyTruthy (optToPy (env.locate "")) = false)
    (hattr : env.modelsAttr "" = none) :
    (u.model_class = none →
      TrainingTask.initFromUser env u = Except.error (PyError.attributeError "")) ∧
    (∀ t, TrainingTask.initFromUser env u = Except.ok t → u.model_class ≠ none) := by
  have h1 : u.model_class = none →
      TrainingTask.initFromUser env u = Except.error (PyError.attributeError "") := by
    intro hu
    simp [TrainingTask.initFromUser, TrainingTask.init, mergeParams,
      resolveOrGetattr, TrainingTask.default_params, hu, hloc, hattr]
  refine ⟨h1, ?_⟩
  intro t ht hu
  rw [h1 hu] at ht
  exact Except.noConfusion ht

/-- Witness for C8: in the concrete environment, the all-default user
configuration cannot be constructed. -/
theorem c8_witness :
    TrainingTask.initFromUser envW userNone = Except.error (PyError.attributeError "") :=
  (c8_default_model_class_unresolvable envW userNone rfl rfl).1 rfl

/-- Claim C9: none of `create_model`, `create_training_hooks` and
`create_metrics` modifies the task's state: each returns the task exactly
as it was (so `self.params` and `self._model_cls` are unchanged). -/
theorem c9_methods_do_not_mutate_state (env : PyEnv) (t : TrainingTask)
    (mode : PyVal) (estimator : Estimator) :
    (TrainingTask.create_model t mode).2 = t ∧
    (TrainingTask.create_training_hooks env t estimator).2 = t ∧
    (TrainingTask.create_metrics env t).2 = t :=
  ⟨rfl, rfl, rfl⟩

end Seq2Seq
